import Mathlib

/-!
Verification of the wallet service (handler/service/model layers) against its
natural-language specification.

The embedding follows the Go source:
  internal/handler/wallet.go   (WalletHandler, GetWalletBalance,
                                HandleWalletOperation, ProcessQueue,
                                handleOperation, handleWithdraw, helpers)
  internal/service validator   (WalletValidator)
  internal/model wallet        (WalletRequest, DEPOSIT, WITHDRAW)

Modelling conventions:
- Monetary amounts are float64 in the source; they are modelled as exact
  rationals.  Every claim under study concerns control flow and exact
  decimal arithmetic on small amounts, where the float64 comparisons and
  sums coincide with the rational ones.
- Storage and cache are modelled by explicit state and by oracles giving
  each call's outcome; infrastructure calls that the claims treat as
  succeeding (BeginTx, UPDATE, INSERT, Commit) are modelled as succeeding.
- Each handler invocation produces, besides its result, the list of
  storage/cache side-effect events it performed, in program order.
- Row locks are not modelled: a balance read inside a transaction sees the
  transaction's own pending writes first and otherwise the latest
  committed state.  Blocking between transactions is a concurrency
  phenomenon outside the shallow embedding.
- A method call on a nil interface value panics in Go; the model returns a
  dedicated panicked outcome at exactly those call sites.
-/

namespace WalletService

/-- Operation tag DEPOSIT from internal/model (OperationType is a string type). -/
def DEPOSIT : String := "DEPOSIT"

/-- Operation tag WITHDRAW from internal/model. -/
def WITHDRAW : String := "WITHDRAW"

/-- Model of model.WalletRequest as the handler uses it: the wallet id is the
string submitted in the request body and is parsed with uuid.Parse. -/
structure WalletRequest where
  WalletID : String
  OperationType : String
  Amount : ℚ
  deriving DecidableEq, Repr

/-- Textual form of uuid.Nil. -/
def uuidNil : String := "00000000-0000-0000-0000-000000000000"

/-- Hexadecimal digit test used by the uuid model. -/
def isUUIDHexDigit (c : Char) : Bool :=
  c.isDigit || ('a' ≤ c && c ≤ 'f') || ('A' ≤ c && c ≤ 'F')

/-- Model of github.com/google/uuid Parse, restricted to the canonical
36-character 8-4-4-4-12 hyphenated form (the only form this repository
produces or tests).  On success it returns the normalized lowercase textual
form, matching what walletUUID.String() yields after parsing. -/
def uuidParse (s : String) : Option String :=
  let cs := s.toList
  if cs.length == 36
      && (List.range 36).all (fun i =>
            if i == 8 || i == 13 || i == 18 || i == 23 then cs.getD i ' ' == '-'
            else isUUIDHexDigit (cs.getD i ' '))
  then some (String.mk (cs.map Char.toLower))
  else none

/-- Error values of the service validator (errors.New sentinels in the
source, compared by identity). -/
inductive ValidationError
  | nilRequest
  | invalidUUIDFormat
  | emptyWalletID
  | negativeAmount
  | insufficientFunds
  | invalidOperationType (opType : String)
  deriving DecidableEq, Repr

/-- Message text of each validator error, from the source constants. -/
def validationMessage : ValidationError → String
  | .nilRequest => "request не может быть nil"
  | .invalidUUIDFormat => "неверный формат UUID"
  | .emptyWalletID => "wallet ID не может быть пустым"
  | .negativeAmount => "сумма должна быть положительной"
  | .insufficientFunds => "недостаточно средств"
  | .invalidOperationType t => "неверный тип операции: " ++ t

/-- WalletValidator.ValidateWalletID: rejects the nil uuid. -/
def ValidateWalletID (id : String) : Except ValidationError Unit :=
  if id == uuidNil then .error .emptyWalletID else .ok ()

/-- WalletValidator.ValidateAmount: rejects strictly negative amounts only. -/
def ValidateAmount (amount : ℚ) : Except ValidationError Unit :=
  if amount < 0 then .error .negativeAmount else .ok ()

/-- WalletValidator.ValidateOperationType: accepts exactly DEPOSIT and WITHDRAW. -/
def ValidateOperationType (opType : String) : Except ValidationError Unit :=
  if opType != DEPOSIT && opType != WITHDRAW then
    .error (.invalidOperationType opType)
  else .ok ()

/-- WalletValidator.ValidateBalance: insufficient funds when the current
balance is strictly below the requested amount. -/
def ValidateBalance (currentBalance requestAmount : ℚ) : Except ValidationError Unit :=
  if currentBalance < requestAmount then .error .insufficientFunds else .ok ()

/-- WalletValidator.validateRequest: nil check, uuid parse, then the three
field validators in order. -/
def validateRequest (req : Option WalletRequest) : Except ValidationError Unit :=
  match req with
  | none => .error .nilRequest
  | some r =>
    match uuidParse r.WalletID with
    | none => .error .invalidUUIDFormat
    | some walletID =>
      match ValidateWalletID walletID with
      | .error e => .error e
      | .ok _ =>
        match ValidateAmount r.Amount with
        | .error e => .error e
        | .ok _ => ValidateOperationType r.OperationType

/-- WalletValidator.ValidateWalletRequest wraps validateRequest; the wrapping
only changes the message text, so the error value is carried unchanged. -/
def ValidateWalletRequest (req : Option WalletRequest) : Except ValidationError Unit :=
  validateRequest req

/-- Row of the transactions table as written by recordTransaction: wallet id,
signed amount, operation tag.  The created_at timestamp is not modelled. -/
structure LogEntry where
  walletId : String
  amount : ℚ
  opType : String
  deriving DecidableEq, Repr

/-- Committed database state: the wallets table (id, balance pairs) and the
append-only transactions table. -/
structure DBState where
  wallets : List (String × ℚ)
  transactions : List LogEntry
  deriving DecidableEq, Repr

/-- Committed balance of a wallet, none when no row exists. -/
def lookupBalance (db : DBState) (id : String) : Option ℚ :=
  (db.wallets.find? (fun p => p.1 == id)).map (fun p => p.2)

/-- Effect of the UPDATE wallets SET balance statement on the wallets table. -/
def setBalance (ws : List (String × ℚ)) (id : String) (b : ℚ) : List (String × ℚ) :=
  ws.map (fun p => if p.1 == id then (p.1, b) else p)

/-- An open database transaction: its creation index and its buffered
writes, applied atomically on commit and discarded on rollback. -/
structure Tx where
  txId : Nat
  balanceWrites : List (String × ℚ)
  logWrites : List LogEntry
  deriving DecidableEq, Repr

/-- Result of db.BeginTx: a fresh transaction with no pending writes. -/
def Tx.new (txId : Nat) : Tx := ⟨txId, [], []⟩

/-- WalletHandler.updateBalance buffered inside the transaction. -/
def updateBalance (tx : Tx) (id : String) (newBalance : ℚ) : Tx :=
  { tx with balanceWrites := tx.balanceWrites ++ [(id, newBalance)] }

/-- WalletHandler.recordTransaction buffered inside the transaction. -/
def recordTransaction (tx : Tx) (id : String) (amount : ℚ) (opType : String) : Tx :=
  { tx with logWrites := tx.logWrites ++ [⟨id, amount, opType⟩] }

/-- Tx.Commit: applies the transaction's balance writes and appends its log
writes to the committed state, atomically. -/
def commitTx (db : DBState) (tx : Tx) : DBState :=
  { wallets := tx.balanceWrites.foldl (fun ws w => setBalance ws w.1 w.2) db.wallets,
    transactions := db.transactions ++ tx.logWrites }

/-- WalletHandler.getCurrentBalance: the SELECT FOR UPDATE read.  It sees the
transaction's own pending writes first, otherwise the committed state; in
every executed path the read precedes any write of that transaction, so it
reads the committed balance. -/
def getCurrentBalance (db : DBState) (tx : Tx) (id : String) : Option ℚ :=
  match tx.balanceWrites.reverse.find? (fun p => p.1 == id) with
  | some p => some p.2
  | none => lookupBalance db id

/-- Storage and cache side effects, in program order. -/
inductive Event
  | beginTx (txId : Nat)
  | queryBalanceForUpdate (txId : Nat) (walletId : String)
  | queryBalancePlain (walletId : String)
  | execUpdateBalance (txId : Nat) (walletId : String) (newBalance : ℚ)
  | execInsertTransaction (txId : Nat) (walletId : String) (amount : ℚ) (opType : String)
  | commitTx (txId : Nat)
  | rollbackTx (txId : Nat)
  | cacheGet (key : String)
  | cacheSet (key : String) (ttlSeconds : Nat)
  | cacheLPush (key : String)
  | sleepMs (ms : Nat)
  deriving DecidableEq, Repr

/-- Storage or cache access, as opposed to a pure delay. -/
def Event.isStorageAccess : Event → Bool
  | .sleepMs _ => false
  | _ => true

/-- Result of one handleOperation run, mirroring the WalletError values the
source builds (code 400 for validation errors and the bad uuid, 404 for the
missing wallet) plus the nil-writer panic described below. -/
inductive ExecOutcome
  | ok
  | errValidation (e : ValidationError)
  | errInvalidUUID
  | errWalletNotFound
  | panicked
  deriving DecidableEq, Repr

/-- Result of handleWithdraw as seen by its caller. -/
inductive WithdrawOutcome
  | success
  | failed (e : ExecOutcome)
  | panicked
  deriving DecidableEq, Repr

/-- WalletHandler.handleWithdraw.  The writer argument models the
http.ResponseWriter parameter; handleOperation passes nil (modelled none),
and in Go every http.Error or sendSuccessResponse call on that nil interface
value panics.  The function begins its own transaction (a nested, second
transaction when invoked from handleOperation), reads the balance with
FOR UPDATE, validates sufficiency, updates the balance, records one log
entry with the negated amount, and commits; the success response is then
written, which panics when the writer is nil — after the commit. -/
def handleWithdraw (w : Option Unit) (db : DBState) (req : WalletRequest) (txId : Nat) :
    WithdrawOutcome × DBState × List Event :=
  let tx := Tx.new txId
  match uuidParse req.WalletID with
  | none =>
    (.failed .errInvalidUUID, db, [Event.beginTx txId, Event.rollbackTx txId])
  | some wid =>
    match getCurrentBalance db tx wid with
    | none =>
      ((if w.isSome then WithdrawOutcome.failed .errWalletNotFound else .panicked), db,
        [Event.beginTx txId, Event.queryBalanceForUpdate txId wid, Event.rollbackTx txId])
    | some currentBalance =>
      match ValidateBalance currentBalance req.Amount with
      | .error _ =>
        ((if w.isSome then WithdrawOutcome.failed (.errValidation .insufficientFunds) else .panicked),
          db,
          [Event.beginTx txId, Event.queryBalanceForUpdate txId wid, Event.rollbackTx txId])
      | .ok _ =>
        let newBalance := currentBalance - req.Amount
        let tx1 := updateBalance tx wid newBalance
        let tx2 := recordTransaction tx1 wid (-req.Amount) req.OperationType
        let db1 := commitTx db tx2
        ((if w.isSome then WithdrawOutcome.success else .panicked), db1,
          [Event.beginTx txId, Event.queryBalanceForUpdate txId wid,
           Event.execUpdateBalance txId wid newBalance,
           Event.execInsertTransaction txId wid (-req.Amount) req.OperationType,
           Event.commitTx txId, Event.rollbackTx txId])

/-- WalletHandler.handleOperation: amount and operation-type validation,
BeginTx (the outer transaction, index 0), uuid parse, FOR UPDATE balance
read, ValidateBalance (before the operation-type switch, so it gates
deposits as well), then the switch.  DEPOSIT updates and records in the
outer transaction and commits it.  WITHDRAW delegates to
handleWithdraw(nil, req), which runs a second transaction (index 1) and
always panics on its nil writer after committing; the panic unwinds through
handleOperation, so the outer recordTransaction and Commit are never
reached and the deferred rollbacks run. -/
def handleOperation (db : DBState) (req : WalletRequest) : ExecOutcome × DBState × List Event :=
  match ValidateAmount req.Amount with
  | .error e => (.errValidation e, db, [])
  | .ok _ =>
  match ValidateOperationType req.OperationType with
  | .error e => (.errValidation e, db, [])
  | .ok _ =>
  let outer := Tx.new 0
  match uuidParse req.WalletID with
  | none => (.errInvalidUUID, db, [Event.beginTx 0, Event.rollbackTx 0])
  | some wid =>
    match getCurrentBalance db outer wid with
    | none =>
      (.errWalletNotFound, db,
        [Event.beginTx 0, Event.queryBalanceForUpdate 0 wid, Event.rollbackTx 0])
    | some currentBalance =>
      match ValidateBalance currentBalance req.Amount with
      | .error e =>
        (.errValidation e, db,
          [Event.beginTx 0, Event.queryBalanceForUpdate 0 wid, Event.rollbackTx 0])
      | .ok _ =>
        if req.OperationType == DEPOSIT then
          let newBalance := currentBalance + req.Amount
          let outer1 := updateBalance outer wid newBalance
          let outer2 := recordTransaction outer1 wid req.Amount req.OperationType
          (.ok, commitTx db outer2,
            [Event.beginTx 0, Event.queryBalanceForUpdate 0 wid,
             Event.execUpdateBalance 0 wid newBalance,
             Event.execInsertTransaction 0 wid req.Amount req.OperationType,
             Event.commitTx 0, Event.rollbackTx 0])
        else if req.OperationType == WITHDRAW then
          match handleWithdraw none db req 1 with
          | (.panicked, db1, evs) =>
            (.panicked, db1,
              [Event.beginTx 0, Event.queryBalanceForUpdate 0 wid] ++ evs ++ [Event.rollbackTx 0])
          | (.failed e, db1, evs) =>
            (e, db1,
              [Event.beginTx 0, Event.queryBalanceForUpdate 0 wid] ++ evs ++ [Event.rollbackTx 0])
          | (.success, db1, evs) =>
            let outer1 := recordTransaction outer wid req.Amount req.OperationType
            (.ok, commitTx db1 outer1,
              [Event.beginTx 0, Event.queryBalanceForUpdate 0 wid] ++ evs ++
                [Event.execInsertTransaction 0 wid req.Amount req.OperationType,
                 Event.commitTx 0, Event.rollbackTx 0])
        else
          (.errValidation (.invalidOperationType req.OperationType), db,
            [Event.beginTx 0, Event.queryBalanceForUpdate 0 wid, Event.rollbackTx 0])

/-- WalletHandler.ProcessQueueOperation: applies handleOperation to an item
consumed from the queue, with no further validation of its own. -/
def ProcessQueueOperation (db : DBState) (op : WalletRequest) : ExecOutcome × DBState × List Event :=
  handleOperation db op

/-- Handler configuration (Config in the source). -/
structure Config where
  MaxRetries : Nat
  OperationTimeout : Nat
  ConcurrencyLimit : Nat
  deriving DecidableEq, Repr

/-- Go zero value of Config: every numeric field is 0. -/
def Config.goZeroValue : Config := ⟨0, 0, 0⟩

/-- The modellable fields of WalletHandler: its configuration, the debug
flag, the rate limiter's parameters (rate 2000 per second, burst 1000) and
the capacity of the read semaphore channel. -/
structure WalletHandler where
  config : Config
  debugMode : Bool
  rateLimiterRatePerSec : Nat
  rateLimiterBurst : Nat
  semaphoreCapacity : Nat
  deriving DecidableEq, Repr

/-- NewWalletHandler: the composite literal sets db, cache, validator,
rateLimiter (rate 2000, burst 1000), debugMode and a semaphore channel of
capacity 1000; the config field is omitted, so it keeps Go's zero value. -/
def NewWalletHandler (debugMode : Bool) : WalletHandler :=
  { config := Config.goZeroValue
    debugMode := debugMode
    rateLimiterRatePerSec := 2000
    rateLimiterBurst := 1000
    semaphoreCapacity := 1000 }

/-- Capacity of the worker-pool channel created by ProcessQueue:
make(chan struct, h.config.ConcurrencyLimit). -/
def ProcessQueueWorkerPoolCapacity (h : WalletHandler) : Nat :=
  h.config.ConcurrencyLimit

/-- JSON values this handler actually encodes: a bare string, a bare number,
a one-field object with a numeric value, or a one-field object with a string
value. -/
inductive Json
  | str (s : String)
  | num (q : ℚ)
  | objNum (key : String) (value : ℚ)
  | objStr (key : String) (value : String)
  deriving DecidableEq, Repr

/-- HTTP outcome of a handler invocation: a JSON body written with the given
status, an http.Error, a bare status write, or a panic that produced no
response. -/
inductive HttpResponse
  | json (status : Nat) (body : Json)
  | httpError (message : String) (status : Nat)
  | empty (status : Nat)
  | panicked
  deriving DecidableEq, Repr

/-- Error and status message constants from internal/handler/wallet.go. -/
def ErrInsufficientFundsMsg : String := "недостаточно средств"

/-- Message for a missing wallet. -/
def ErrWalletNotFoundMsg : String := "кошелек не найден"

/-- Message for a non-POST write request. -/
def ErrMethodNotAllowedMsg : String := "Метод не поддерживается"

/-- Message for an unparseable wallet id. -/
def ErrInvalidUUIDMsg : String := "Неверный формат UUID кошелька"

/-- Message when the balance cannot be obtained after retries. -/
def ErrBalanceRetrievalFailMsg : String := "Ошибка при получении баланса"

/-- Message for a saturated read semaphore. -/
def ErrServerBusyMsg : String := "Server is busy"

/-- Message for an undecodable request body. -/
def ErrParseRequestMsg : String := "Ошибка при разборе запроса"

/-- Message for a rate-limited request. -/
def ErrTooManyRequestsMsg : String := "Too many requests"

/-- Status message for a successfully queued operation. -/
def SuccessQueueAddMsg : String := "Операция добавлена в очередь"

/-- Status message for a synchronously completed operation. -/
def SuccessOperationMsg : String := "Операция выполнена успешно"

/-- Cache key for a wallet's balance: fmt.Sprintf balance:walletID. -/
def balanceCacheKey (wid : String) : String := "balance:" ++ wid

/-- Outcome of one cache.Get call: a hit with the stored string, or an error
(a genuine failure or a plain miss — the source does not distinguish them). -/
inductive CacheReadResult
  | hit (value : String)
  | errMiss
  deriving DecidableEq, Repr

/-- Outcome of one getBalanceFromDB call. -/
inductive DBReadResult
  | found (balance : ℚ)
  | notFound
  | failure
  deriving DecidableEq, Repr

/-- Aggregate result of the store-read retry loop. -/
inductive DBLoopResult
  | found (balance : ℚ)
  | notFound
  | exhausted
  deriving DecidableEq, Repr

/-- Cache retry loop of GetWalletBalance, iterating over the remaining
attempt indices (the source's for loop over i = 0, 1, 2): on a hit the loop
returns the cached string; on an error it sleeps 50ms times the one-based
attempt number and retries — including after the final attempt, as in the
source. -/
def cacheLoopGo (reads : Nat → CacheReadResult) (key : String) :
    List Nat → Option String × List Event
  | [] => (none, [])
  | i :: rest =>
    match reads i with
    | .hit v => (some v, [Event.cacheGet key])
    | .errMiss =>
      let r := cacheLoopGo reads key rest
      (r.1, Event.cacheGet key :: Event.sleepMs (50 * (i + 1)) :: r.2)

/-- Store retry loop of GetWalletBalance, iterating over the remaining
attempt indices (the source's for loop over i = 0, 1, 2): success breaks out
with no sleep, a WalletNotFound result returns immediately with no sleep and
no further attempt, and any other failure sleeps 50ms times the one-based
attempt number and retries — including after the final attempt. -/
def dbLoopGo (reads : Nat → DBReadResult) (wid : String) :
    List Nat → DBLoopResult × List Event
  | [] => (.exhausted, [])
  | i :: rest =>
    match reads i with
    | .found b => (.found b, [Event.queryBalancePlain wid])
    | .notFound => (.notFound, [Event.queryBalancePlain wid])
    | .failure =>
      let r := dbLoopGo reads wid rest
      (r.1, Event.queryBalancePlain wid :: Event.sleepMs (50 * (i + 1)) :: r.2)

/-- Body of GetWalletBalance past the semaphore: uuid parse (400 on failure,
before any storage access), the cache loop (a hit is encoded directly, so
the body is the raw cached string), then the store loop; a found balance is
sent as a one-field balance object and the cache is repopulated
asynchronously with a 30-second TTL (the cacheSet event, placed after the
reads); WalletNotFound maps to 404 and retry exhaustion to 503. -/
def getBalanceCore (pathId : String) (cacheReads : Nat → CacheReadResult)
    (dbReads : Nat → DBReadResult) : HttpResponse × List Event :=
  match uuidParse pathId with
  | none => (.httpError ErrInvalidUUIDMsg 400, [])
  | some wid =>
    let key := balanceCacheKey wid
    match cacheLoopGo cacheReads key [0, 1, 2] with
    | (some v, evs) => (.json 200 (.str v), evs)
    | (none, evs) =>
      match dbLoopGo dbReads wid [0, 1, 2] with
      | (.found b, evs2) =>
        (.json 200 (.objNum "balance" b), evs ++ evs2 ++ [Event.cacheSet key 30])
      | (.notFound, evs2) => (.httpError ErrWalletNotFoundMsg 404, evs ++ evs2)
      | (.exhausted, evs2) => (.httpError ErrBalanceRetrievalFailMsg 503, evs ++ evs2)

/-- WalletHandler.GetWalletBalance.  Arguments: the handler, the number of
reads currently holding a semaphore slot, the HTTP method, the id segment of
the URL path, and the two read oracles.  An OPTIONS preflight returns 200
immediately.  The semaphore acquisition is a select with a default branch:
if a slot is free the body runs and the deferred receive releases the slot
on return (the third component is the in-flight count after release);
otherwise the request is rejected at once with 503 Server is busy. -/
def GetWalletBalance (h : WalletHandler) (inFlight : Nat) (method : String) (pathId : String)
    (cacheReads : Nat → CacheReadResult) (dbReads : Nat → DBReadResult) :
    HttpResponse × List Event × Nat :=
  if method == "OPTIONS" then (.empty 200, [], inFlight)
  else if inFlight < h.semaphoreCapacity then
    let core := getBalanceCore pathId cacheReads dbReads
    (core.1, core.2, inFlight)
  else (.httpError ErrServerBusyMsg 503, [], inFlight)

/-- Result of decoding the request body of the write endpoint. -/
inductive BodyParse
  | malformed
  | parsed (req : WalletRequest)
  deriving DecidableEq, Repr

/-- rate.Limiter.Allow on a bucket holding the given number of tokens:
consumes one token when available, otherwise refuses without consuming.
Token refill over time is not modelled (single-instant view). -/
def limiterAllow (tokens : Nat) : Bool × Nat :=
  if 0 < tokens then (true, tokens - 1) else (false, tokens)

/-- Everything HandleWalletOperation does after the rate-limiter gate:
method check (405), body decode (400), uuid parse (400), request validation
(400).  In debug mode the operation runs inline through handleOperation and
the outcome is mapped to the WalletError's code; otherwise the validated
request is pushed onto the wallet_operations list and 202 is returned. -/
def handleWalletOperationBody (h : WalletHandler) (method : String) (body : BodyParse)
    (db : DBState) : HttpResponse × DBState × List Event :=
  if method != "POST" then (.httpError ErrMethodNotAllowedMsg 405, db, [])
  else
    match body with
    | .malformed => (.httpError ErrParseRequestMsg 400, db, [])
    | .parsed req =>
      match uuidParse req.WalletID with
      | none => (.httpError ErrInvalidUUIDMsg 400, db, [])
      | some wid =>
        let validated : WalletRequest :=
          { WalletID := wid, OperationType := req.OperationType, Amount := req.Amount }
        match ValidateWalletRequest (some validated) with
        | .error e =>
          (.httpError ("ошибка валидации: " ++ validationMessage e) 400, db, [])
        | .ok _ =>
          if h.debugMode then
            match handleOperation db validated with
            | (.ok, db1, evs) => (.json 200 (.objStr "status" SuccessOperationMsg), db1, evs)
            | (.panicked, db1, evs) => (.panicked, db1, evs)
            | (.errValidation e, db1, evs) => (.httpError (validationMessage e) 400, db1, evs)
            | (.errInvalidUUID, db1, evs) => (.httpError ErrInvalidUUIDMsg 400, db1, evs)
            | (.errWalletNotFound, db1, evs) => (.httpError ErrWalletNotFoundMsg 404, db1, evs)
          else
            (.json 202 (.objStr "status" SuccessQueueAddMsg), db, [Event.cacheLPush "wallet_operations"])

/-- WalletHandler.HandleWalletOperation: the rate limiter gates every
incoming request first; a refused request gets 429 immediately, before the
method check and before the body is read.  The second component is the token
bucket after the call. -/
def HandleWalletOperation (h : WalletHandler) (tokens : Nat) (method : String) (body : BodyParse)
    (db : DBState) : HttpResponse × Nat × DBState × List Event :=
  match limiterAllow tokens with
  | (false, t) => (.httpError ErrTooManyRequestsMsg 429, t, db, [])
  | (true, t) =>
    let r := handleWalletOperationBody h method body db
    (r.1, t, r.2.1, r.2.2)

/-- Sample wallet id for concrete instances: the uuid used by the
repository's own tests. -/
def sampleWalletId : String := "123e4567-e89b-12d3-a456-426614174000"

/-- Helper: after setBalance writes a new value for a key that is present in
the wallets list, looking that key up yields the new value. -/
theorem find_map_setBalance (ws : List (String × ℚ)) (wid : String) (v : ℚ)
    (h : (ws.find? (fun p => p.1 == wid)).isSome = true) :
    ((setBalance ws wid v).find? (fun p => p.1 == wid)).map (fun p => p.2) = some v := by
  induction ws with
  | nil => simp [List.find?] at h
  | cons x t ih =>
    by_cases hx : (x.1 == wid) = true
    · simp [setBalance, List.find?, hx]
    · have hfx : (x.1 == wid) = false := by simpa using hx
      have h2 : (t.find? (fun p => p.1 == wid)).isSome = true := by
        simpa [List.find?, hfx] using h
      simpa [setBalance, List.find?, hfx] using ih h2

/-- Helper: lookupBalance after a commit that wrote the wallet's balance. -/
theorem lookupBalance_after_set (ws : List (String × ℚ)) (ts : List LogEntry)
    (wid : String) (b v : ℚ)
    (h : lookupBalance ⟨ws, ts⟩ wid = some b) :
    ∀ ts2 : List LogEntry, lookupBalance ⟨setBalance ws wid v, ts2⟩ wid = some v := by
  intro ts2
  have hsome : (ws.find? (fun p => p.1 == wid)).isSome = true := by
    simp only [lookupBalance] at h
    cases hf : ws.find? (fun p => p.1 == wid) with
    | none => rw [hf] at h; simp at h
    | some p => simp [hf]
  simpa [lookupBalance] using find_map_setBalance ws wid v hsome

/-- Helper: ValidateOperationType accepts WITHDRAW. -/
theorem validateOperationType_withdraw : ValidateOperationType WITHDRAW = Except.ok () := rfl

/-- Helper: ValidateOperationType accepts DEPOSIT. -/
theorem validateOperationType_deposit : ValidateOperationType DEPOSIT = Except.ok () := rfl

/-- Helper: a fresh transaction reads the committed balance. -/
theorem getCurrentBalance_new (db : DBState) (wid : String) (txId : Nat) :
    getCurrentBalance db (Tx.new txId) wid = lookupBalance db wid := by
  simp [getCurrentBalance, Tx.new]

/-- Helper: a transaction with no pending writes reads the committed balance. -/
theorem getCurrentBalance_nil (db : DBState) (wid : String) (txId : Nat) :
    getCurrentBalance db ⟨txId, [], []⟩ wid = lookupBalance db wid := by
  simp [getCurrentBalance]

/-- Helper: the two operation tags differ. -/
theorem withdraw_ne_deposit : ¬ WITHDRAW = DEPOSIT := by decide

/-- Helper: boolean comparison of the tags. -/
theorem withdraw_beq_deposit : (WITHDRAW == DEPOSIT) = false := by rfl

/-- Helper: boolean self-comparison of WITHDRAW. -/
theorem withdraw_beq_withdraw : (WITHDRAW == WITHDRAW) = true := by rfl

/-- Helper: boolean self-comparison of DEPOSIT. -/
theorem deposit_beq_deposit : (DEPOSIT == DEPOSIT) = true := by rfl

/-- C1: The claim says a deposit succeeds regardless of the current balance
because the balance-sufficiency check applies only to withdrawals; the code
instead runs ValidateBalance before the operation-type switch, so a DEPOSIT
of 1000.00 into a wallet holding 0.00 is rejected with InsufficientFunds,
nothing is committed and no log entry is written.  This theorem evaluates
handleOperation at that failing input. -/
theorem c1_deposit_rejected_when_balance_insufficient :
    handleOperation ⟨[(sampleWalletId, 0)], []⟩ ⟨sampleWalletId, DEPOSIT, 1000⟩
      = (ExecOutcome.errValidation ValidationError.insufficientFunds,
         ⟨[(sampleWalletId, 0)], []⟩,
         [Event.beginTx 0, Event.queryBalanceForUpdate 0 sampleWalletId,
          Event.rollbackTx 0]) := by
  rfl

/-- C2: For every committed WITHDRAW of amount a from a wallet whose locked
balance b satisfies b ≥ a, the committed balance becomes b − a and exactly
one transaction-log record is appended, carrying the signed amount −a, and
it is written by the same transaction (index 1) that writes the balance, the
two committed together by its single commit.  The run ends in the
nil-ResponseWriter panic after that commit, which prevents the outer
transaction's extra record: the outer transaction is rolled back with
nothing in it. -/
theorem c2_committed_withdraw_single_negative_record
    (db : DBState) (s wid : String) (b a : ℚ)
    (hparse : uuidParse s = some wid)
    (hbal : lookupBalance db wid = some b)
    (ha : 0 ≤ a) (hba : a ≤ b) :
    handleOperation db ⟨s, WITHDRAW, a⟩
      = (ExecOutcome.panicked,
         ⟨setBalance db.wallets wid (b - a), db.transactions ++ [⟨wid, -a, WITHDRAW⟩]⟩,
         [Event.beginTx 0, Event.queryBalanceForUpdate 0 wid,
          Event.beginTx 1, Event.queryBalanceForUpdate 1 wid,
          Event.execUpdateBalance 1 wid (b - a),
          Event.execInsertTransaction 1 wid (-a) WITHDRAW,
          Event.commitTx 1, Event.rollbackTx 1, Event.rollbackTx 0])
    ∧ lookupBalance (handleOperation db ⟨s, WITHDRAW, a⟩).2.1 wid = some (b - a) := by
  have hVA : ValidateAmount a = Except.ok () := by
    simp [ValidateAmount, not_lt.mpr ha]
  have hVB : ValidateBalance b a = Except.ok () := by
    simp [ValidateBalance, not_lt.mpr hba]
  have hW : handleWithdraw none db ⟨s, WITHDRAW, a⟩ 1
      = (WithdrawOutcome.panicked,
         ⟨setBalance db.wallets wid (b - a), db.transactions ++ [⟨wid, -a, WITHDRAW⟩]⟩,
         [Event.beginTx 1, Event.queryBalanceForUpdate 1 wid,
          Event.execUpdateBalance 1 wid (b - a),
          Event.execInsertTransaction 1 wid (-a) WITHDRAW,
          Event.commitTx 1, Event.rollbackTx 1]) := by
    simp [handleWithdraw, hparse, Tx.new, getCurrentBalance_nil, hbal, hVB,
      updateBalance, recordTransaction, commitTx]
  have hmain : handleOperation db ⟨s, WITHDRAW, a⟩
      = (ExecOutcome.panicked,
         ⟨setBalance db.wallets wid (b - a), db.transactions ++ [⟨wid, -a, WITHDRAW⟩]⟩,
         [Event.beginTx 0, Event.queryBalanceForUpdate 0 wid,
          Event.beginTx 1, Event.queryBalanceForUpdate 1 wid,
          Event.execUpdateBalance 1 wid (b - a),
          Event.execInsertTransaction 1 wid (-a) WITHDRAW,
          Event.commitTx 1, Event.rollbackTx 1, Event.rollbackTx 0]) := by
    simp [handleOperation, hVA, validateOperationType_withdraw, hparse, Tx.new,
      getCurrentBalance_nil, hbal, hVB, hW, withdraw_beq_deposit, withdraw_beq_withdraw,
      withdraw_ne_deposit]
  refine ⟨hmain, ?_⟩
  rw [hmain]
  exact lookupBalance_after_set db.wallets db.transactions wid b (b - a) hbal _

/-- C3: A WITHDRAW whose amount strictly exceeds the current locked balance
fails with InsufficientFunds, the database is unchanged, no log entry is
written and no commit occurs: only the transaction begin, the locked read
and the deferred rollback happen. -/
theorem c3_insufficient_withdraw_rejected_unchanged
    (db : DBState) (s wid : String) (b a : ℚ)
    (hparse : uuidParse s = some wid)
    (hbal : lookupBalance db wid = some b)
    (ha : 0 ≤ a) (hba : b < a) :
    handleOperation db ⟨s, WITHDRAW, a⟩
      = (ExecOutcome.errValidation ValidationError.insufficientFunds, db,
         [Event.beginTx 0, Event.queryBalanceForUpdate 0 wid, Event.rollbackTx 0]) := by
  have hVA : ValidateAmount a = Except.ok () := by
    simp [ValidateAmount, not_lt.mpr ha]
  have hVB : ValidateBalance b a = Except.error ValidationError.insufficientFunds := by
    simp [ValidateBalance, hba]
  simp [handleOperation, hVA, validateOperationType_withdraw, hparse, Tx.new,
    getCurrentBalance_nil, hbal, hVB]

/-- C3 witness: withdrawing 800.00 from a wallet holding 700.00 is rejected
with InsufficientFunds and leaves the state untouched. -/
theorem c3_insufficient_withdraw_rejected_unchanged_witness :
    uuidParse sampleWalletId = some sampleWalletId
    ∧ lookupBalance ⟨[(sampleWalletId, 700)], []⟩ sampleWalletId = some 700
    ∧ (0:ℚ) ≤ 800 ∧ (700:ℚ) < 800
    ∧ handleOperation ⟨[(sampleWalletId, 700)], []⟩ ⟨sampleWalletId, WITHDRAW, 800⟩
        = (ExecOutcome.errValidation ValidationError.insufficientFunds,
           ⟨[(sampleWalletId, 700)], []⟩,
           [Event.beginTx 0, Event.queryBalanceForUpdate 0 sampleWalletId,
            Event.rollbackTx 0]) :=
  ⟨by rfl, by rfl, by norm_num, by norm_num,
    c3_insufficient_withdraw_rejected_unchanged ⟨[(sampleWalletId, 700)], []⟩
      sampleWalletId sampleWalletId 700 800 (by rfl) (by rfl) (by norm_num) (by norm_num)⟩

/-- C2 witness: withdrawing 300.00 from a wallet holding 1000.00 commits
balance 700.00 with the single signed record −300.00. -/
theorem c2_committed_withdraw_single_negative_record_witness :
    uuidParse sampleWalletId = some sampleWalletId
    ∧ lookupBalance ⟨[(sampleWalletId, 1000)], []⟩ sampleWalletId = some 1000
    ∧ (0:ℚ) ≤ 300 ∧ (300:ℚ) ≤ 1000
    ∧ lookupBalance
        (handleOperation ⟨[(sampleWalletId, 1000)], []⟩ ⟨sampleWalletId, WITHDRAW, 300⟩).2.1
        sampleWalletId = some (1000 - 300) :=
  ⟨by rfl, by rfl, by norm_num, by norm_num,
    (c2_committed_withdraw_single_negative_record ⟨[(sampleWalletId, 1000)], []⟩
      sampleWalletId sampleWalletId 1000 300 (by rfl) (by rfl) (by norm_num) (by norm_num)).2⟩

/-- C4 counterexample: the claim says no deposit of amount exactly 0 is ever
applied; the code has no strict-positivity check, so a DEPOSIT of 0 passes
ValidateAmount (which only rejects negative amounts), executes, commits and
appends a transaction-log entry of amount 0. -/
theorem c4_zero_amount_deposit_executes :
    handleOperation ⟨[(sampleWalletId, 5)], []⟩ ⟨sampleWalletId, DEPOSIT, 0⟩
      = (ExecOutcome.ok, ⟨[(sampleWalletId, 5)], [⟨sampleWalletId, 0, DEPOSIT⟩]⟩,
         [Event.beginTx 0, Event.queryBalanceForUpdate 0 sampleWalletId,
          Event.execUpdateBalance 0 sampleWalletId 5,
          Event.execInsertTransaction 0 sampleWalletId 0 DEPOSIT,
          Event.commitTx 0, Event.rollbackTx 0]) := by
  have hparse : uuidParse sampleWalletId = some sampleWalletId := by rfl
  have hbal : lookupBalance ⟨[(sampleWalletId, 5)], []⟩ sampleWalletId = some 5 := by rfl
  simp [handleOperation, ValidateAmount, validateOperationType_deposit, hparse, Tx.new,
    getCurrentBalance_nil, hbal, ValidateBalance, deposit_beq_deposit,
    updateBalance, recordTransaction, commitTx, setBalance]
  norm_num

/-- C4 amended: validation accepts an amount exactly when it is ≥ 0, and
there is no strict-positivity gate at execution: a DEPOSIT of amount 0 on an
existing wallet with non-negative balance executes and commits, leaving the
balance unchanged and appending one log entry of amount 0. -/
theorem c4_amount_validation_amended :
    (∀ a : ℚ, ValidateAmount a = Except.ok () ↔ 0 ≤ a)
    ∧ ∀ (db : DBState) (s wid : String) (b : ℚ),
        uuidParse s = some wid → lookupBalance db wid = some b → 0 ≤ b →
        handleOperation db ⟨s, DEPOSIT, 0⟩
          = (ExecOutcome.ok,
             ⟨setBalance db.wallets wid b, db.transactions ++ [⟨wid, 0, DEPOSIT⟩]⟩,
             [Event.beginTx 0, Event.queryBalanceForUpdate 0 wid,
              Event.execUpdateBalance 0 wid b,
              Event.execInsertTransaction 0 wid 0 DEPOSIT,
              Event.commitTx 0, Event.rollbackTx 0]) := by
  constructor
  · intro a
    unfold ValidateAmount
    by_cases h : a < 0
    · simp [h, not_le.mpr h]
    · simp [h, not_lt.mp h]
  · intro db s wid b hparse hbal hb
    have hVB : ValidateBalance b 0 = Except.ok () := by
      simp [ValidateBalance, not_lt.mpr hb]
    simp [handleOperation, ValidateAmount, validateOperationType_deposit, hparse, Tx.new,
      getCurrentBalance_nil, hbal, hVB, deposit_beq_deposit,
      updateBalance, recordTransaction, commitTx]

/-- C4 amended witness: ValidateAmount accepts 0, and a DEPOSIT of 0 into a
wallet holding 5.00 commits with one log entry of amount 0. -/
theorem c4_amount_validation_amended_witness :
    (ValidateAmount 0 = Except.ok () ↔ (0:ℚ) ≤ 0)
    ∧ handleOperation ⟨[(sampleWalletId, 5)], []⟩ ⟨sampleWalletId, DEPOSIT, 0⟩
        = (ExecOutcome.ok,
           ⟨setBalance [(sampleWalletId, 5)] sampleWalletId 5,
            [] ++ [⟨sampleWalletId, 0, DEPOSIT⟩]⟩,
           [Event.beginTx 0, Event.queryBalanceForUpdate 0 sampleWalletId,
            Event.execUpdateBalance 0 sampleWalletId 5,
            Event.execInsertTransaction 0 sampleWalletId 0 DEPOSIT,
            Event.commitTx 0, Event.rollbackTx 0]) :=
  ⟨c4_amount_validation_amended.1 0,
    c4_amount_validation_amended.2 ⟨[(sampleWalletId, 5)], []⟩ sampleWalletId sampleWalletId 5
      (by rfl) (by rfl) (by norm_num)⟩

/-- C9: NewWalletHandler leaves the config field at Go's zero value, so
ProcessQueue on such a handler builds its worker-pool channel with capacity
ConcurrencyLimit = 0 instead of a configured worker count. -/
theorem c9_new_handler_zero_concurrency_limit (d : Bool) :
    (NewWalletHandler d).config = Config.goZeroValue
    ∧ (NewWalletHandler d).config.ConcurrencyLimit = 0
    ∧ ProcessQueueWorkerPoolCapacity (NewWalletHandler d) = 0 :=
  ⟨rfl, rfl, rfl⟩

/-- C10: The write endpoint's rate limiter gates every incoming request
before the method check and before the body is read: with an empty bucket
every request — any method, any body — gets 429 and nothing else happens;
with a non-empty bucket one token is consumed on every request, including
non-POST requests, which then get 405. -/
theorem c10_rate_limiter_gates_first
    (h : WalletHandler) (tokens : Nat) (method : String) (body : BodyParse) (db : DBState) :
    (tokens = 0 →
      HandleWalletOperation h tokens method body db
        = (HttpResponse.httpError ErrTooManyRequestsMsg 429, 0, db, []))
    ∧ (0 < tokens → (HandleWalletOperation h tokens method body db).2.1 = tokens - 1)
    ∧ (0 < tokens → method ≠ "POST" →
        HandleWalletOperation h tokens method body db
          = (HttpResponse.httpError ErrMethodNotAllowedMsg 405, tokens - 1, db, [])) := by
  refine ⟨?_, ?_, ?_⟩
  · intro h0
    subst h0
    rfl
  · intro hpos
    simp [HandleWalletOperation, limiterAllow, hpos]
  · intro hpos hm
    have hb : (method != "POST") = true := by
      simpa using hm
    simp [HandleWalletOperation, limiterAllow, hpos, handleWalletOperationBody, hb]

/-- C10 witness: with an empty bucket a GET gets 429; with one token a GET
consumes the token and gets 405. -/
theorem c10_rate_limiter_gates_first_witness :
    ((0:Nat) = 0 →
      HandleWalletOperation (NewWalletHandler false) 0 "GET" BodyParse.malformed ⟨[], []⟩
        = (HttpResponse.httpError ErrTooManyRequestsMsg 429, 0, ⟨[], []⟩, []))
    ∧ ((0:Nat) < 1 → "GET" ≠ "POST" →
        HandleWalletOperation (NewWalletHandler false) 1 "GET" BodyParse.malformed ⟨[], []⟩
          = (HttpResponse.httpError ErrMethodNotAllowedMsg 405, 0, ⟨[], []⟩, [])) :=
  ⟨(c10_rate_limiter_gates_first (NewWalletHandler false) 0 "GET" BodyParse.malformed
      ⟨[], []⟩).1,
    fun hp hm =>
      (c10_rate_limiter_gates_first (NewWalletHandler false) 1 "GET" BodyParse.malformed
        ⟨[], []⟩).2.2 hp hm⟩

/-- Helper: a GET request is not an OPTIONS preflight. -/
theorem get_beq_options : ("GET" == "OPTIONS") = false := rfl

/-- C5: The balance read algorithm: up to 3 cache attempts with backoff 50ms
times the attempt number; on cache exhaustion up to 3 plain store reads with
the same backoff; exhaustion of both yields 503 (ServiceUnavailable); a
successful store read returns the balance and repopulates the cache with a
30-second TTL; a WalletNotFound store result short-circuits to 404 with no
further retry (the result does not depend on the later oracle values); a
cache hit stops the cache loop at once. -/
theorem c5_balance_read_retry_fallback
    (pid wid : String) (hparse : uuidParse pid = some wid) :
    (getBalanceCore pid (fun _ => CacheReadResult.errMiss) (fun _ => DBReadResult.failure)
      = (HttpResponse.httpError ErrBalanceRetrievalFailMsg 503,
         [Event.cacheGet (balanceCacheKey wid), Event.sleepMs 50,
          Event.cacheGet (balanceCacheKey wid), Event.sleepMs 100,
          Event.cacheGet (balanceCacheKey wid), Event.sleepMs 150,
          Event.queryBalancePlain wid, Event.sleepMs 50,
          Event.queryBalancePlain wid, Event.sleepMs 100,
          Event.queryBalancePlain wid, Event.sleepMs 150]))
    ∧ (∀ (b : ℚ) (d : Nat → DBReadResult), d 0 = DBReadResult.found b →
        getBalanceCore pid (fun _ => CacheReadResult.errMiss) d
          = (HttpResponse.json 200 (Json.objNum "balance" b),
             [Event.cacheGet (balanceCacheKey wid), Event.sleepMs 50,
              Event.cacheGet (balanceCacheKey wid), Event.sleepMs 100,
              Event.cacheGet (balanceCacheKey wid), Event.sleepMs 150,
              Event.queryBalancePlain wid, Event.cacheSet (balanceCacheKey wid) 30]))
    ∧ (∀ d : Nat → DBReadResult, d 0 = DBReadResult.failure → d 1 = DBReadResult.notFound →
        getBalanceCore pid (fun _ => CacheReadResult.errMiss) d
          = (HttpResponse.httpError ErrWalletNotFoundMsg 404,
             [Event.cacheGet (balanceCacheKey wid), Event.sleepMs 50,
              Event.cacheGet (balanceCacheKey wid), Event.sleepMs 100,
              Event.cacheGet (balanceCacheKey wid), Event.sleepMs 150,
              Event.queryBalancePlain wid, Event.sleepMs 50,
              Event.queryBalancePlain wid]))
    ∧ (∀ (v : String) (c : Nat → CacheReadResult) (d : Nat → DBReadResult),
        c 0 = CacheReadResult.errMiss → c 1 = CacheReadResult.hit v →
        getBalanceCore pid c d
          = (HttpResponse.json 200 (Json.str v),
             [Event.cacheGet (balanceCacheKey wid), Event.sleepMs 50,
              Event.cacheGet (balanceCacheKey wid)])) := by
  refine ⟨?_, ?_, ?_, ?_⟩
  · simp [getBalanceCore, hparse, cacheLoopGo, dbLoopGo]
  · intro b d h0
    simp [getBalanceCore, hparse, cacheLoopGo, dbLoopGo, h0]
  · intro d h0 h1
    simp [getBalanceCore, hparse, cacheLoopGo, dbLoopGo, h0, h1]
  · intro v c d h0 h1
    simp [getBalanceCore, hparse, cacheLoopGo, h0, h1]

/-- C5 witness: with the cache down and the store answering 250.00 on the
first attempt, the read returns the balance object and repopulates the cache
with a 30-second TTL. -/
theorem c5_balance_read_retry_fallback_witness :
    uuidParse sampleWalletId = some sampleWalletId
    ∧ getBalanceCore sampleWalletId (fun _ => CacheReadResult.errMiss)
        (fun _ => DBReadResult.found 250)
      = (HttpResponse.json 200 (Json.objNum "balance" 250),
         [Event.cacheGet (balanceCacheKey sampleWalletId), Event.sleepMs 50,
          Event.cacheGet (balanceCacheKey sampleWalletId), Event.sleepMs 100,
          Event.cacheGet (balanceCacheKey sampleWalletId), Event.sleepMs 150,
          Event.queryBalancePlain sampleWalletId,
          Event.cacheSet (balanceCacheKey sampleWalletId) 30]) :=
  ⟨by rfl,
    (c5_balance_read_retry_fallback sampleWalletId sampleWalletId (by rfl)).2.1 250
      (fun _ => DBReadResult.found 250) rfl⟩

/-- C6 counterexample: the claim says every successful balance-read response
has the one-field balance-object shape on both paths; on the cache-hit path
the handler instead encodes the raw cached string, so the success body is
the bare JSON string of the cached value, which is not the balance-object
shape for any number. -/
theorem c6_cache_hit_success_body_not_balance_object :
    (GetWalletBalance (NewWalletHandler false) 0 "GET" sampleWalletId
        (fun _ => CacheReadResult.hit "700") (fun _ => DBReadResult.failure)).1
      = HttpResponse.json 200 (Json.str "700")
    ∧ ∀ q : ℚ,
        HttpResponse.json 200 (Json.str "700") ≠ HttpResponse.json 200 (Json.objNum "balance" q) := by
  constructor
  · rfl
  · intro q hq
    simp at hq

/-- C6 amended: when the semaphore admits the read, a malformed wallet id
yields 400 with no storage access; a success on the store-fallback path has
the one-field balance-object body; a success on the cache-hit path has the
raw cached string as its body. -/
theorem c6_response_shapes_amended
    (h : WalletHandler) (inFlight : Nat) (pid wid : String)
    (c : Nat → CacheReadResult) (d : Nat → DBReadResult)
    (hcap : inFlight < h.semaphoreCapacity) :
    (uuidParse pid = none →
      GetWalletBalance h inFlight "GET" pid c d
        = (HttpResponse.httpError ErrInvalidUUIDMsg 400, [], inFlight))
    ∧ (∀ v, uuidParse pid = some wid → c 0 = CacheReadResult.hit v →
        GetWalletBalance h inFlight "GET" pid c d
          = (HttpResponse.json 200 (Json.str v),
             [Event.cacheGet (balanceCacheKey wid)], inFlight))
    ∧ (∀ b, uuidParse pid = some wid → (∀ i, c i = CacheReadResult.errMiss) →
        d 0 = DBReadResult.found b →
        GetWalletBalance h inFlight "GET" pid c d
          = (HttpResponse.json 200 (Json.objNum "balance" b),
             [Event.cacheGet (balanceCacheKey wid), Event.sleepMs 50,
              Event.cacheGet (balanceCacheKey wid), Event.sleepMs 100,
              Event.cacheGet (balanceCacheKey wid), Event.sleepMs 150,
              Event.queryBalancePlain wid, Event.cacheSet (balanceCacheKey wid) 30],
             inFlight)) := by
  refine ⟨?_, ?_, ?_⟩
  · intro hnone
    simp [GetWalletBalance, get_beq_options, hcap, getBalanceCore, hnone]
  · intro v hparse h0
    simp [GetWalletBalance, get_beq_options, hcap, getBalanceCore, hparse, cacheLoopGo, h0]
  · intro b hparse hc h0
    simp [GetWalletBalance, get_beq_options, hcap, getBalanceCore, hparse, cacheLoopGo,
      dbLoopGo, hc, h0]

/-- C6 amended witness: a store-fallback success carries the balance object
and a cache hit carries the raw string. -/
theorem c6_response_shapes_amended_witness :
    (0 < (NewWalletHandler false).semaphoreCapacity)
    ∧ GetWalletBalance (NewWalletHandler false) 0 "GET" sampleWalletId
        (fun _ => CacheReadResult.hit "700") (fun _ => DBReadResult.failure)
      = (HttpResponse.json 200 (Json.str "700"),
         [Event.cacheGet (balanceCacheKey sampleWalletId)], 0) :=
  ⟨by norm_num [NewWalletHandler],
    (c6_response_shapes_amended (NewWalletHandler false) 0 sampleWalletId sampleWalletId
      (fun _ => CacheReadResult.hit "700") (fun _ => DBReadResult.failure)
      (by norm_num [NewWalletHandler])).2.1 "700" (by rfl) rfl⟩

/-- C7 counterexample: the claim says a malformed wallet id is rejected
before any storage access on every path, including operations consumed from
the queue; on the queue path handleOperation begins a database transaction
before parsing the id, so a storage access (the transaction begin) precedes
the rejection. -/
theorem c7_queue_path_accesses_storage_before_id_validation :
    ProcessQueueOperation ⟨[(sampleWalletId, 0)], []⟩ ⟨"invalid-uuid", DEPOSIT, 100⟩
      = (ExecOutcome.errInvalidUUID, ⟨[(sampleWalletId, 0)], []⟩,
         [Event.beginTx 0, Event.rollbackTx 0])
    ∧ Event.beginTx 0
        ∈ (ProcessQueueOperation ⟨[(sampleWalletId, 0)], []⟩
            ⟨"invalid-uuid", DEPOSIT, 100⟩).2.2
    ∧ Event.isStorageAccess (Event.beginTx 0) = true := by
  have heq : ProcessQueueOperation ⟨[(sampleWalletId, 0)], []⟩ ⟨"invalid-uuid", DEPOSIT, 100⟩
      = (ExecOutcome.errInvalidUUID, ⟨[(sampleWalletId, 0)], []⟩,
         [Event.beginTx 0, Event.rollbackTx 0]) := by rfl
  refine ⟨heq, ?_, rfl⟩
  rw [heq]
  simp

/-- C7 amended: a malformed wallet id is rejected with no storage access on
the synchronous read path (when the semaphore admits the request) and on the
synchronous write path (when the rate limiter admits it); on the
queue-consumed path the id is parsed only after a database transaction has
been begun: the request is still rejected with the state unchanged, and the
only storage events are that transaction begin and its rollback — no query,
no write, no commit, no cache call. -/
theorem c7_malformed_id_rejection_amended :
    (∀ (h : WalletHandler) (inFlight : Nat) (pid : String)
        (c : Nat → CacheReadResult) (d : Nat → DBReadResult),
      inFlight < h.semaphoreCapacity → uuidParse pid = none →
      GetWalletBalance h inFlight "GET" pid c d
        = (HttpResponse.httpError ErrInvalidUUIDMsg 400, [], inFlight))
    ∧ (∀ (h : WalletHandler) (tokens : Nat) (req : WalletRequest) (db : DBState),
      0 < tokens → uuidParse req.WalletID = none →
      HandleWalletOperation h tokens "POST" (BodyParse.parsed req) db
        = (HttpResponse.httpError ErrInvalidUUIDMsg 400, tokens - 1, db, []))
    ∧ (∀ (db : DBState) (req : WalletRequest), uuidParse req.WalletID = none →
      (ProcessQueueOperation db req).2.1 = db
      ∧ ∀ e ∈ (ProcessQueueOperation db req).2.2,
          e = Event.beginTx 0 ∨ e = Event.rollbackTx 0) := by
  refine ⟨?_, ?_, ?_⟩
  · intro h inFlight pid c d hcap hnone
    simp [GetWalletBalance, get_beq_options, hcap, getBalanceCore, hnone]
  · intro h tokens req db hpos hnone
    simp [HandleWalletOperation, limiterAllow, hpos, handleWalletOperationBody, hnone]
  · intro db req hnone
    unfold ProcessQueueOperation handleOperation
    cases hva : ValidateAmount req.Amount with
    | error e => simp
    | ok u =>
      cases hvo : ValidateOperationType req.OperationType with
      | error e => simp
      | ok u2 =>
        simp [hnone]

/-- C7 amended witness: a queue item with an unparseable wallet id leaves
the state unchanged and produces only the transaction begin and rollback. -/
theorem c7_malformed_id_rejection_amended_witness :
    uuidParse "invalid-uuid" = none
    ∧ ((ProcessQueueOperation ⟨[(sampleWalletId, 0)], []⟩
          ⟨"invalid-uuid", DEPOSIT, 100⟩).2.1 = ⟨[(sampleWalletId, 0)], []⟩
       ∧ ∀ e ∈ (ProcessQueueOperation ⟨[(sampleWalletId, 0)], []⟩
            ⟨"invalid-uuid", DEPOSIT, 100⟩).2.2,
          e = Event.beginTx 0 ∨ e = Event.rollbackTx 0) :=
  ⟨by rfl,
    c7_malformed_id_rejection_amended.2.2 ⟨[(sampleWalletId, 0)], []⟩
      ⟨"invalid-uuid", DEPOSIT, 100⟩ (by rfl)⟩

/-- C8: On a handler built by NewWalletHandler the read semaphore has
capacity 1000; when 1000 or more reads are in flight, a non-OPTIONS request
is rejected immediately with 503 Server is busy, performing no storage
access and leaving the in-flight count unchanged; when fewer than 1000 are
in flight, the request proceeds to the read body and the slot is released
afterwards (the in-flight count after return equals the count before). -/
theorem c8_read_semaphore_bounded_nonblocking
    (d : Bool) (inFlight : Nat) (method pid : String)
    (c : Nat → CacheReadResult) (dR : Nat → DBReadResult)
    (hm : method ≠ "OPTIONS") :
    (NewWalletHandler d).semaphoreCapacity = 1000
    ∧ (1000 ≤ inFlight →
        GetWalletBalance (NewWalletHandler d) inFlight method pid c dR
          = (HttpResponse.httpError ErrServerBusyMsg 503, [], inFlight))
    ∧ (inFlight < 1000 →
        GetWalletBalance (NewWalletHandler d) inFlight method pid c dR
          = ((getBalanceCore pid c dR).1, (getBalanceCore pid c dR).2, inFlight)) := by
  have hmb : (method == "OPTIONS") = false := by
    simpa using hm
  refine ⟨rfl, ?_, ?_⟩
  · intro hsat
    simp [GetWalletBalance, hmb, NewWalletHandler, not_lt.mpr hsat]
  · intro hlt
    simp [GetWalletBalance, hmb, NewWalletHandler, hlt]

/-- C8 witness: at exactly 1000 in-flight reads a GET is rejected busy; at 0
in flight it proceeds to the read body. -/
theorem c8_read_semaphore_bounded_nonblocking_witness :
    "GET" ≠ "OPTIONS"
    ∧ GetWalletBalance (NewWalletHandler false) 1000 "GET" sampleWalletId
        (fun _ => CacheReadResult.errMiss) (fun _ => DBReadResult.failure)
      = (HttpResponse.httpError ErrServerBusyMsg 503, [], 1000) :=
  ⟨by decide,
    (c8_read_semaphore_bounded_nonblocking false 1000 "GET" sampleWalletId
      (fun _ => CacheReadResult.errMiss) (fun _ => DBReadResult.failure)
      (by decide)).2.1 (by norm_num)⟩

end WalletService
